import Mathlib

/-
Shallow embedding of `src/libbpf-rs/src/map.rs`.

The Rust layer wraps kernel BPF map syscalls exposed through `libbpf_sys`.
Pure wrapper logic (size validation, errno translation, absence handling,
flag and type value classes) is translated definition by definition from the
source.  Each kernel call is an FFI call whose code is not part of the
repository source; the wrapper functions therefore take the observed outcome
of the call (`KernelOutcome`) as an explicit argument, and a separate
spec-modelled kernel state machine (`KernelState`, the `bpf_map_*` functions)
instantiates that outcome for end-to-end claims.

Machine integers: `fd` and error codes are `i32`/`c_int`, modelled as `Int`;
sizes and raw map-type values are `u32`, modelled as `Nat`; flag bits are
`u64`, modelled as `Nat`.  No arithmetic in the source can overflow at the
points modelled, so no explicit wrap-around is needed.
-/

/-- Errors of the crate, as used by `map.rs`.  Modelled from the spec:
`Error` lives in the crate's `error.rs`, which is not under `src/`; spec §7
says two kinds suffice: `InvalidInput` with a message and `System` with the
errno code. -/
inductive Error where
  | InvalidInput : String → Error
  | System : Int → Error
  deriving DecidableEq

/-- Errno value `ENOENT` ("no such entry"), compared against by the
lookup-style operations via `nix::errno`. -/
def ENOENT : Int := 2

/-- Errno value `EEXIST`, used by the spec-modelled kernel when an entry or a
pin path already exists. -/
def EEXIST : Int := 17

/-- Outcome of a single kernel call as observed by the wrapper: the raw
return value of the call, the thread errno in effect after the call, and the
bytes the kernel wrote into the caller-provided output buffer (empty for
calls that take no output buffer). -/
structure KernelOutcome where
  ret : Int
  errno : Int
  written : List Nat
  deriving DecidableEq

/-- Flags to configure `Map` operations; `bitflags!` struct over `u64`. -/
structure MapFlags where
  bits : Nat
  deriving DecidableEq

def MapFlags.ANY : MapFlags := ⟨0⟩

def MapFlags.NO_EXIST : MapFlags := ⟨1⟩

def MapFlags.EXIST : MapFlags := ⟨1 <<< 1⟩

def MapFlags.LOCK : MapFlags := ⟨1 <<< 2⟩

/-- Set union of flags (`|` of bitflags). -/
def MapFlags.union (a b : MapFlags) : MapFlags := ⟨a.bits ||| b.bits⟩

/-- Set containment test of bitflags (`a.contains(b)`). -/
def MapFlags.contains (a b : MapFlags) : Bool := a.bits &&& b.bits == b.bits

/-- Type of a `Map`; mirrors `enum bpf_map_type` in the kernel uapi, plus the
crate's own `Unknown` sentinel with discriminant `u32::MAX`. -/
inductive MapType where
  | Unspec
  | Hash
  | Array
  | ProgArray
  | PerfEventArray
  | PercpuHash
  | PercpuArray
  | StackTrace
  | CgroupArray
  | LruHash
  | LruPercpuHash
  | LpmTrie
  | ArrayOfMaps
  | HashOfMaps
  | Devmap
  | Sockmap
  | Cpumap
  | Xskmap
  | Sockhash
  | CgroupStorage
  | ReuseportSockarray
  | PercpuCgroupStorage
  | Queue
  | Stack
  | SkStorage
  | DevmapHash
  | StructOps
  | Unknown
  deriving DecidableEq

/-- Numeric discriminant of each `MapType` variant (`#[repr(u32)]`; implicit
discriminants count up from `Unspec = 0`, `Unknown` is pinned to
`u32::MAX`). -/
def MapType.toRaw : MapType → Nat
  | .Unspec => 0
  | .Hash => 1
  | .Array => 2
  | .ProgArray => 3
  | .PerfEventArray => 4
  | .PercpuHash => 5
  | .PercpuArray => 6
  | .StackTrace => 7
  | .CgroupArray => 8
  | .LruHash => 9
  | .LruPercpuHash => 10
  | .LpmTrie => 11
  | .ArrayOfMaps => 12
  | .HashOfMaps => 13
  | .Devmap => 14
  | .Sockmap => 15
  | .Cpumap => 16
  | .Xskmap => 17
  | .Sockhash => 18
  | .CgroupStorage => 19
  | .ReuseportSockarray => 20
  | .PercpuCgroupStorage => 21
  | .Queue => 22
  | .Stack => 23
  | .SkStorage => 24
  | .DevmapHash => 25
  | .StructOps => 26
  | .Unknown => 4294967295

/-- The derived `TryFromPrimitive` conversion: succeeds exactly on the
discriminant value of some variant, fails on every other `u32`. -/
def MapType.tryFromPrimitive (raw : Nat) : Option MapType :=
  if raw = 0 then some .Unspec
  else if raw = 1 then some .Hash
  else if raw = 2 then some .Array
  else if raw = 3 then some .ProgArray
  else if raw = 4 then some .PerfEventArray
  else if raw = 5 then some .PercpuHash
  else if raw = 6 then some .PercpuArray
  else if raw = 7 then some .StackTrace
  else if raw = 8 then some .CgroupArray
  else if raw = 9 then some .LruHash
  else if raw = 10 then some .LruPercpuHash
  else if raw = 11 then some .LpmTrie
  else if raw = 12 then some .ArrayOfMaps
  else if raw = 13 then some .HashOfMaps
  else if raw = 14 then some .Devmap
  else if raw = 15 then some .Sockmap
  else if raw = 16 then some .Cpumap
  else if raw = 17 then some .Xskmap
  else if raw = 18 then some .Sockhash
  else if raw = 19 then some .CgroupStorage
  else if raw = 20 then some .ReuseportSockarray
  else if raw = 21 then some .PercpuCgroupStorage
  else if raw = 22 then some .Queue
  else if raw = 23 then some .Stack
  else if raw = 24 then some .SkStorage
  else if raw = 25 then some .DevmapHash
  else if raw = 26 then some .StructOps
  else if raw = 4294967295 then some .Unknown
  else none

/-- The `match MapType::try_from(self.ty)` fallback in `Map::map_type`:
unrecognized raw values become `Unknown` instead of an error. -/
def mapTypeOfRaw (raw : Nat) : MapType :=
  match MapType.tryFromPrimitive raw with
  | some t => t
  | none => MapType.Unknown

/-- A parsed but not yet loaded BPF map.  The raw `*mut bpf_map` pointer is
opaque to the wrapper logic and is modelled as `Unit`. -/
structure OpenMap where
  ptr : Unit
  deriving DecidableEq

/-- A created map: kernel file descriptor plus cached metadata.  The raw
`*mut bpf_map` pointer is opaque and modelled as `Unit`. -/
structure Map where
  fd : Int
  name : String
  ty : Nat
  key_size : Nat
  value_size : Nat
  ptr : Unit
  deriving DecidableEq

/-- `Map::new`. -/
def Map.new (fd : Int) (name : String) (ty : Nat) (key_size value_size : Nat)
    (ptr : Unit) : Map :=
  { fd := fd, name := name, ty := ty, key_size := key_size,
    value_size := value_size, ptr := ptr }

/-- `Map::map_type`: convert the stored raw type, falling back to
`Unknown`. -/
def Map.map_type (m : Map) : MapType := mapTypeOfRaw m.ty

/-- The `format!` message of the size-validation errors:
`"{label} {actual} != {expected}"`. -/
def sizeErr (label : String) (actual expected : Nat) : String :=
  label ++ " " ++ toString actual ++ " != " ++ toString expected

/-- Effect of `Vec::with_capacity(n)`, a kernel write into the buffer, then
`set_len(n)`: a vector of length exactly `n` whose prefix is what the kernel
wrote.  Bytes the kernel left untouched are uninitialized memory in the
source and are modelled here as `0`. -/
def setLen (written : List Nat) (n : Nat) : List Nat :=
  (written ++ List.replicate (n - written.length) 0).take n

/-- `OpenMap::set_initial_value`; `ret` is the return value of
`bpf_map__set_initial_value`. -/
def OpenMap.set_initial_value (om : OpenMap) (data : List Nat) (ret : Int) :
    (Except Error Unit) × OpenMap :=
  -- Error code is returned negative, flip to positive to match errno
  (if ret ≠ 0 then .error (.System (-ret)) else .ok (), om)

/-- `OpenMap::set_max_entries`; `ret` is the return value of
`bpf_map__set_max_entries`. -/
def OpenMap.set_max_entries (om : OpenMap) (count : Nat) (ret : Int) :
    (Except Error Unit) × OpenMap :=
  -- Error code is returned negative, flip to positive to match errno
  (if ret ≠ 0 then .error (.System (-ret)) else .ok (), om)

/-- Modelled from the spec: `util::path_to_cstring` is in the crate's
`util.rs`, not under `src/`.  It converts a path to a NUL-terminated C
string and fails with an `InvalidInput` error when the path cannot be so
represented, e.g. when it contains an interior NUL byte. -/
def path_to_cstring (path : List Nat) : Except Error (List Nat) :=
  if path.contains 0 then .error (.InvalidInput "path contains NUL")
  else .ok (path ++ [0])

/-- `Map::lookup`; `kr` is the observed outcome of
`bpf_map_lookup_elem_flags`. -/
def Map.lookup (m : Map) (key : List Nat) (flags : MapFlags)
    (kr : KernelOutcome) : Except Error (Option (List Nat)) :=
  if key.length ≠ m.key_size then
    .error (.InvalidInput (sizeErr "key_size" key.length m.key_size))
  else if kr.ret = 0 then
    .ok (some (setLen kr.written m.value_size))
  else if kr.errno = ENOENT then
    .ok none
  else
    .error (.System kr.errno)

/-- `Map::delete`; `kr` is the observed outcome of `bpf_map_delete_elem`
(whose `written` component is unused: the call takes no output buffer).
Takes `&mut self`, so the (unchanged) receiver is returned. -/
def Map.delete (m : Map) (key : List Nat) (kr : KernelOutcome) :
    (Except Error Unit) × Map :=
  (if key.length ≠ m.key_size then
    .error (.InvalidInput (sizeErr "key_size" key.length m.key_size))
  else if kr.ret = 0 then
    .ok ()
  else
    .error (.System kr.errno), m)

/-- `Map::lookup_and_delete`; `kr` is the observed outcome of
`bpf_map_lookup_and_delete_elem`.  Takes `&mut self`, so the (unchanged)
receiver is returned. -/
def Map.lookup_and_delete (m : Map) (key : List Nat) (kr : KernelOutcome) :
    (Except Error (Option (List Nat))) × Map :=
  (if key.length ≠ m.key_size then
    .error (.InvalidInput (sizeErr "key_size" key.length m.key_size))
  else if kr.ret = 0 then
    .ok (some (setLen kr.written m.value_size))
  else if kr.errno = ENOENT then
    .ok none
  else
    .error (.System kr.errno), m)

/-- `Map::update`; `kr` is the observed outcome of `bpf_map_update_elem`.
Takes `&mut self`, so the (unchanged) receiver is returned. -/
def Map.update (m : Map) (key value : List Nat) (flags : MapFlags)
    (kr : KernelOutcome) : (Except Error Unit) × Map :=
  (if key.length ≠ m.key_size then
    .error (.InvalidInput (sizeErr "key_size" key.length m.key_size))
  else if value.length ≠ m.value_size then
    .error (.InvalidInput (sizeErr "value_size" value.length m.value_size))
  else if kr.ret = 0 then
    .ok ()
  else
    .error (.System kr.errno), m)

/-- `Map::pin`; `kr` is the observed outcome of `bpf_map__pin` (only its
`ret` component is used; that call returns a negated errno directly). -/
def Map.pin (m : Map) (path : List Nat) (kr : KernelOutcome) :
    (Except Error Unit) × Map :=
  (match path_to_cstring path with
  | .error e => .error e
  | .ok _ =>
    -- Error code is returned negative, flip to positive to match errno
    if kr.ret ≠ 0 then .error (.System (-kr.ret)) else .ok (), m)

/-- `Map::unpin`; `kr` is the observed outcome of `bpf_map__unpin`. -/
def Map.unpin (m : Map) (path : List Nat) (kr : KernelOutcome) :
    (Except Error Unit) × Map :=
  (match path_to_cstring path with
  | .error e => .error e
  | .ok _ =>
    -- Error code is returned negative, flip to positive to match errno
    if kr.ret ≠ 0 then .error (.System (-kr.ret)) else .ok (), m)

/-- Modelled from the spec: the kernel-resident map store behind the
`libbpf_sys` calls, which is not part of the repository source.  Spec §6:
keys and values are fixed-length opaque byte records; return code 0 means
success and a nonzero return sets the errno, with `ENOENT` meaning "absent"
for lookup-style calls; a pin path can be pinned once and unpinned if
present. -/
structure KernelState where
  entries : List (List Nat × List Nat)
  pinned : List (List Nat)
  errno : Int
  deriving DecidableEq

/-- Find the value stored for a key in the modelled kernel store. -/
def kfind (es : List (List Nat × List Nat)) (k : List Nat) :
    Option (List Nat) :=
  match es with
  | [] => none
  | (k2, v) :: rest => if k2 = k then some v else kfind rest k

/-- Insert or overwrite a key in the modelled kernel store. -/
def kinsert (es : List (List Nat × List Nat)) (k v : List Nat) :
    List (List Nat × List Nat) :=
  match es with
  | [] => [(k, v)]
  | (k2, v2) :: rest =>
    if k2 = k then (k, v) :: rest else (k2, v2) :: kinsert rest k v

/-- Remove a key from the modelled kernel store. -/
def kremove (es : List (List Nat × List Nat)) (k : List Nat) :
    List (List Nat × List Nat) :=
  match es with
  | [] => []
  | (k2, v2) :: rest => if k2 = k then rest else (k2, v2) :: kremove rest k

/-- Modelled from the spec: the `bpf_map_update_elem` syscall.  Spec §4.2 and
§8: `NO_EXIST` (bit 1) fails if the key is already present, `EXIST` (bit 2)
fails if the key is absent; otherwise the entry is created or overwritten. -/
def bpf_map_update_elem (st : KernelState) (key value : List Nat)
    (flags : Nat) : Int × KernelState :=
  if flags &&& 1 != 0 && (kfind st.entries key).isSome then
    (-1, { st with errno := EEXIST })
  else if flags &&& 2 != 0 && (kfind st.entries key).isNone then
    (-1, { st with errno := ENOENT })
  else
    (0, { st with entries := kinsert st.entries key value })

/-- Modelled from the spec: the `bpf_map_lookup_elem_flags` syscall.  Returns
the raw return code, the bytes written into the output buffer, and the
resulting kernel state; absence fails with `ENOENT`. -/
def bpf_map_lookup_elem_flags (st : KernelState) (key : List Nat)
    (flags : Nat) : Int × List Nat × KernelState :=
  match kfind st.entries key with
  | some v => (0, v, st)
  | none => (-1, [], { st with errno := ENOENT })

/-- Modelled from the spec: the `bpf_map_delete_elem` syscall; absence fails
with `ENOENT`. -/
def bpf_map_delete_elem (st : KernelState) (key : List Nat) :
    Int × KernelState :=
  match kfind st.entries key with
  | some _ => (0, { st with entries := kremove st.entries key })
  | none => (-1, { st with errno := ENOENT })

/-- Modelled from the spec: the `bpf_map_lookup_and_delete_elem` syscall:
read and remove atomically; absence fails with `ENOENT`. -/
def bpf_map_lookup_and_delete_elem (st : KernelState) (key : List Nat) :
    Int × List Nat × KernelState :=
  match kfind st.entries key with
  | some v => (0, v, { st with entries := kremove st.entries key })
  | none => (-1, [], { st with errno := ENOENT })

/-- Modelled from the spec: `bpf_map__pin` returns a negated errno; pinning
fails if the path already has an entry (spec §6). -/
def bpf_map_pin_path (st : KernelState) (path : List Nat) :
    Int × KernelState :=
  if st.pinned.contains path then (-EEXIST, st)
  else (0, { st with pinned := path :: st.pinned })

/-- Modelled from the spec: `bpf_map__unpin` returns a negated errno;
unpinning fails if the path has no entry (spec §6). -/
def bpf_map_unpin_path (st : KernelState) (path : List Nat) :
    Int × KernelState :=
  if st.pinned.contains path then (0, { st with pinned := st.pinned.erase path })
  else (-ENOENT, st)

/-- `Map::lookup` composed with the modelled kernel: the size validation
happens before the kernel call (no call is issued when it fails), then the
wrapper body consumes the call's outcome. -/
def Map.lookupRun (m : Map) (st : KernelState) (key : List Nat)
    (flags : MapFlags) : (Except Error (Option (List Nat))) × KernelState :=
  if key.length ≠ m.key_size then
    (m.lookup key flags ⟨0, 0, []⟩, st)
  else
    let r := bpf_map_lookup_elem_flags st key flags.bits
    (m.lookup key flags ⟨r.1, r.2.2.errno, r.2.1⟩, r.2.2)

/-- `Map::delete` composed with the modelled kernel. -/
def Map.deleteRun (m : Map) (st : KernelState) (key : List Nat) :
    ((Except Error Unit) × Map) × KernelState :=
  if key.length ≠ m.key_size then
    (m.delete key ⟨0, 0, []⟩, st)
  else
    let r := bpf_map_delete_elem st key
    (m.delete key ⟨r.1, r.2.errno, []⟩, r.2)

/-- `Map::lookup_and_delete` composed with the modelled kernel. -/
def Map.lookupAndDeleteRun (m : Map) (st : KernelState) (key : List Nat) :
    ((Except Error (Option (List Nat))) × Map) × KernelState :=
  if key.length ≠ m.key_size then
    (m.lookup_and_delete key ⟨0, 0, []⟩, st)
  else
    let r := bpf_map_lookup_and_delete_elem st key
    (m.lookup_and_delete key ⟨r.1, r.2.2.errno, r.2.1⟩, r.2.2)

/-- `Map::update` composed with the modelled kernel. -/
def Map.updateRun (m : Map) (st : KernelState) (key value : List Nat)
    (flags : MapFlags) : ((Except Error Unit) × Map) × KernelState :=
  if key.length ≠ m.key_size ∨ value.length ≠ m.value_size then
    (m.update key value flags ⟨0, 0, []⟩, st)
  else
    let r := bpf_map_update_elem st key value flags.bits
    (m.update key value flags ⟨r.1, r.2.errno, []⟩, r.2)

/-- `Map::pin` composed with the modelled kernel: the path conversion
happens before the kernel call (no call is issued when it fails). -/
def Map.pinRun (m : Map) (st : KernelState) (path : List Nat) :
    ((Except Error Unit) × Map) × KernelState :=
  match path_to_cstring path with
  | .error _ => (m.pin path ⟨0, 0, []⟩, st)
  | .ok _ =>
    let r := bpf_map_pin_path st path
    (m.pin path ⟨r.1, 0, []⟩, r.2)

/-- `Map::unpin` composed with the modelled kernel. -/
def Map.unpinRun (m : Map) (st : KernelState) (path : List Nat) :
    ((Except Error Unit) × Map) × KernelState :=
  match path_to_cstring path with
  | .error _ => (m.unpin path ⟨0, 0, []⟩, st)
  | .ok _ =>
    let r := bpf_map_unpin_path st path
    (m.unpin path ⟨r.1, 0, []⟩, r.2)

/-- The buffer produced by `set_len(n)` has length exactly `n`. -/
theorem setLen_length (written : List Nat) (n : Nat) :
    (setLen written n).length = n := by
  simp [setLen]
  omega

/-- When the kernel wrote exactly `n` bytes, `set_len(n)` exposes exactly
those bytes. -/
theorem setLen_eq (written : List Nat) (n : Nat) (h : written.length = n) :
    setLen written n = written := by
  subst h
  simp [setLen]

/-- A freshly inserted key is found with the freshly inserted value. -/
theorem kfind_kinsert (es : List (List Nat × List Nat)) (k v : List Nat) :
    kfind (kinsert es k v) k = some v := by
  induction es with
  | nil => simp [kinsert, kfind]
  | cons hd tl ih =>
    obtain ⟨k2, v2⟩ := hd
    by_cases h : k2 = k
    · simp [kinsert, kfind, h]
    · simp [kinsert, kfind, h, ih]

/-- Claim C1: for every Map CRUD operation (lookup, delete,
lookup_and_delete, update) and every key buffer whose length differs from
`key_size` — and for update additionally every value buffer whose length
differs from `value_size` — the operation returns an `InvalidInput` error
carrying the actual and expected lengths, and no kernel call is issued: the
kernel-visible state is unchanged. -/
theorem crud_size_validation :
    (∀ (m : Map) (st : KernelState) (key : List Nat) (flags : MapFlags)
      (kr : KernelOutcome), key.length ≠ m.key_size →
      m.lookup key flags kr
        = .error (.InvalidInput (sizeErr "key_size" key.length m.key_size)) ∧
      (m.lookupRun st key flags).2 = st) ∧
    (∀ (m : Map) (st : KernelState) (key : List Nat) (kr : KernelOutcome),
      key.length ≠ m.key_size →
      (m.delete key kr).1
        = .error (.InvalidInput (sizeErr "key_size" key.length m.key_size)) ∧
      (m.deleteRun st key).2 = st) ∧
    (∀ (m : Map) (st : KernelState) (key : List Nat) (kr : KernelOutcome),
      key.length ≠ m.key_size →
      (m.lookup_and_delete key kr).1
        = .error (.InvalidInput (sizeErr "key_size" key.length m.key_size)) ∧
      (m.lookupAndDeleteRun st key).2 = st) ∧
    (∀ (m : Map) (st : KernelState) (key value : List Nat) (flags : MapFlags)
      (kr : KernelOutcome), key.length ≠ m.key_size →
      (m.update key value flags kr).1
        = .error (.InvalidInput (sizeErr "key_size" key.length m.key_size)) ∧
      (m.updateRun st key value flags).2 = st) ∧
    (∀ (m : Map) (st : KernelState) (key value : List Nat) (flags : MapFlags)
      (kr : KernelOutcome),
      key.length = m.key_size → value.length ≠ m.value_size →
      (m.update key value flags kr).1
        = .error (.InvalidInput (sizeErr "value_size" value.length m.value_size)) ∧
      (m.updateRun st key value flags).2 = st) := by
  refine ⟨?_, ?_, ?_, ?_, ?_⟩
  · intro m st key flags kr h
    exact ⟨by simp [Map.lookup, h], by simp [Map.lookupRun, h]⟩
  · intro m st key kr h
    exact ⟨by simp [Map.delete, h], by simp [Map.deleteRun, h]⟩
  · intro m st key kr h
    exact ⟨by simp [Map.lookup_and_delete, h], by simp [Map.lookupAndDeleteRun, h]⟩
  · intro m st key value flags kr h
    exact ⟨by simp [Map.update, h], by simp [Map.updateRun, h]⟩
  · intro m st key value flags kr h1 h2
    exact ⟨by simp [Map.update, h1, h2], by simp [Map.updateRun, h1, h2]⟩

/-- Witness for C1: a map with `key_size = 4`, `value_size = 8`, a 3-byte
key and a 7-byte value. -/
theorem crud_size_validation_witness :
    ((Map.new 3 "m" 1 4 8 ()).lookup [1, 0, 0] MapFlags.ANY ⟨0, 0, []⟩
      = .error (.InvalidInput (sizeErr "key_size" 3 4)) ∧
     ((Map.new 3 "m" 1 4 8 ()).lookupRun ⟨[], [], 0⟩ [1, 0, 0] MapFlags.ANY).2
      = ⟨[], [], 0⟩) ∧
    ((Map.new 3 "m" 1 4 8 ()).update [1, 0, 0, 0] [9, 9, 9, 9, 9, 9, 9]
        MapFlags.ANY ⟨0, 0, []⟩).1
      = .error (.InvalidInput (sizeErr "value_size" 7 8)) :=
  ⟨crud_size_validation.1 (Map.new 3 "m" 1 4 8 ()) ⟨[], [], 0⟩ [1, 0, 0]
      MapFlags.ANY ⟨0, 0, []⟩ (by decide),
   (crud_size_validation.2.2.2.2 (Map.new 3 "m" 1 4 8 ()) ⟨[], [], 0⟩
      [1, 0, 0, 0] [9, 9, 9, 9, 9, 9, 9] MapFlags.ANY ⟨0, 0, []⟩ (by decide)
      (by decide)).1⟩

/-- Claim C2: for every correctly sized key, when the kernel reports `ENOENT`
both lookup and lookup_and_delete return `Ok(None)` rather than an error, and
for every other kernel failure they return a `System` error carrying the raw
errno. -/
theorem lookup_absence_not_error (m : Map) (key : List Nat) (flags : MapFlags)
    (kr : KernelOutcome) (hk : key.length = m.key_size) (hret : kr.ret ≠ 0) :
    (kr.errno = ENOENT →
      m.lookup key flags kr = .ok none ∧
      (m.lookup_and_delete key kr).1 = .ok none) ∧
    (kr.errno ≠ ENOENT →
      m.lookup key flags kr = .error (.System kr.errno) ∧
      (m.lookup_and_delete key kr).1 = .error (.System kr.errno)) := by
  constructor
  · intro he
    exact ⟨by simp [Map.lookup, hk, hret, he],
           by simp [Map.lookup_and_delete, hk, hret, he]⟩
  · intro he
    exact ⟨by simp [Map.lookup, hk, hret, he],
           by simp [Map.lookup_and_delete, hk, hret, he]⟩

/-- Witness for C2: `ENOENT` yields `Ok(None)`, errno 13 yields
`System(13)`. -/
theorem lookup_absence_not_error_witness :
    (Map.new 3 "m" 1 4 8 ()).lookup [1, 0, 0, 0] MapFlags.ANY ⟨-1, 2, []⟩
      = .ok none ∧
    ((Map.new 3 "m" 1 4 8 ()).lookup_and_delete [1, 0, 0, 0] ⟨-1, 13, []⟩).1
      = .error (.System 13) :=
  ⟨((lookup_absence_not_error (Map.new 3 "m" 1 4 8 ()) [1, 0, 0, 0]
      MapFlags.ANY ⟨-1, 2, []⟩ (by decide) (by decide)).1 (by decide)).1,
   ((lookup_absence_not_error (Map.new 3 "m" 1 4 8 ()) [1, 0, 0, 0]
      MapFlags.ANY ⟨-1, 13, []⟩ (by decide) (by decide)).2 (by decide)).2⟩

/-- Claim C3: for every correctly sized key `k` and value `v`,
`update(k, v, ANY)` followed by `lookup(k, ANY)` on the same map returns
`Some(v)`, byte for byte. -/
theorem update_then_lookup_roundtrip (m : Map) (st : KernelState)
    (key value : List Nat) (hk : key.length = m.key_size)
    (hv : value.length = m.value_size) :
    (m.updateRun st key value MapFlags.ANY).1.1 = .ok () ∧
    (m.lookupRun (m.updateRun st key value MapFlags.ANY).2 key
      MapFlags.ANY).1 = .ok (some value) := by
  have hupd : bpf_map_update_elem st key value MapFlags.ANY.bits
      = (0, { st with entries := kinsert st.entries key value }) := by
    simp [bpf_map_update_elem, MapFlags.ANY]
  constructor
  · simp [Map.updateRun, hk, hv, hupd, Map.update]
  · simp [Map.updateRun, hk, hv, hupd, Map.lookupRun,
      bpf_map_lookup_elem_flags, kfind_kinsert, Map.lookup,
      setLen_eq value m.value_size hv]

/-- Witness for C3: the spec §8 example, `key_size = 4`, `value_size = 8`,
key `[1,0,0,0]`, value `[9; 8]`, starting from an empty kernel store. -/
theorem update_then_lookup_roundtrip_witness :
    ((Map.new 3 "m" 1 4 8 ()).updateRun ⟨[], [], 0⟩ [1, 0, 0, 0]
      [9, 9, 9, 9, 9, 9, 9, 9] MapFlags.ANY).1.1 = .ok () ∧
    ((Map.new 3 "m" 1 4 8 ()).lookupRun
      ((Map.new 3 "m" 1 4 8 ()).updateRun ⟨[], [], 0⟩ [1, 0, 0, 0]
        [9, 9, 9, 9, 9, 9, 9, 9] MapFlags.ANY).2 [1, 0, 0, 0]
      MapFlags.ANY).1 = .ok (some [9, 9, 9, 9, 9, 9, 9, 9]) :=
  update_then_lookup_roundtrip (Map.new 3 "m" 1 4 8 ()) ⟨[], [], 0⟩
    [1, 0, 0, 0] [9, 9, 9, 9, 9, 9, 9, 9] (by decide) (by decide)

/-- Claim C4: conversion of a raw kernel numeric map-type value to `MapType`
never fails: every `u32` the derived conversion does not recognize is mapped
to the `Unknown` sentinel, whose numeric value `u32::MAX` is distinct from
every recognized kernel value (all of which are below 27), and
`Map::map_type` is the total fallback conversion of the stored raw type. -/
theorem mapType_conversion_total :
    (∀ raw : Nat, MapType.tryFromPrimitive raw = none →
      mapTypeOfRaw raw = MapType.Unknown) ∧
    MapType.toRaw MapType.Unknown = 4294967295 ∧
    (∀ t : MapType, t ≠ MapType.Unknown → MapType.toRaw t < 27) ∧
    (∀ m : Map, m.map_type = mapTypeOfRaw m.ty) := by
  refine ⟨?_, rfl, ?_, fun m => rfl⟩
  · intro raw h
    simp [mapTypeOfRaw, h]
  · intro t h
    cases t <;> first | rfl | decide | exact absurd rfl h

/-- Witness for C4: the unrecognized raw value 27 converts to `Unknown`;
`Hash` is recognized and below 27. -/
theorem mapType_conversion_total_witness :
    mapTypeOfRaw 27 = MapType.Unknown ∧ MapType.toRaw MapType.Hash < 27 ∧
    (Map.new 3 "m" 27 4 8 ()).map_type = mapTypeOfRaw 27 :=
  ⟨mapType_conversion_total.1 27 (by decide),
   mapType_conversion_total.2.2.1 MapType.Hash (by decide),
   mapType_conversion_total.2.2.2 (Map.new 3 "m" 27 4 8 ())⟩

/-- Claim C5: every `System` error reports the errno as a positive value:
for the operations whose underlying call returns a negated errno
(set_initial_value, set_max_entries, pin, unpin) a nonzero return `ret`
produces `System(-ret)` — positive whenever the call followed the negated
errno convention — and for the CRUD operations a kernel failure produces
`System(e)` where `e` is the (positive) errno of the failed call. -/
theorem system_errno_sign :
    (∀ (om : OpenMap) (data : List Nat) (ret : Int), ret ≠ 0 →
      (om.set_initial_value data ret).1 = .error (.System (-ret)) ∧
      (ret < 0 → 0 < -ret)) ∧
    (∀ (om : OpenMap) (count : Nat) (ret : Int), ret ≠ 0 →
      (om.set_max_entries count ret).1 = .error (.System (-ret)) ∧
      (ret < 0 → 0 < -ret)) ∧
    (∀ (m : Map) (path cs : List Nat) (kr : KernelOutcome),
      path_to_cstring path = .ok cs → kr.ret ≠ 0 →
      (m.pin path kr).1 = .error (.System (-kr.ret)) ∧
      (m.unpin path kr).1 = .error (.System (-kr.ret)) ∧
      (kr.ret < 0 → 0 < -kr.ret)) ∧
    (∀ (m : Map) (key value : List Nat) (flags : MapFlags)
      (kr : KernelOutcome),
      key.length = m.key_size → value.length = m.value_size → kr.ret ≠ 0 →
      (m.update key value flags kr).1 = .error (.System kr.errno)) ∧
    (∀ (m : Map) (key : List Nat) (kr : KernelOutcome),
      key.length = m.key_size → kr.ret ≠ 0 →
      (m.delete key kr).1 = .error (.System kr.errno)) ∧
    (∀ (m : Map) (key : List Nat) (flags : MapFlags) (kr : KernelOutcome),
      key.length = m.key_size → kr.ret ≠ 0 → kr.errno ≠ ENOENT →
      m.lookup key flags kr = .error (.System kr.errno)) := by
  refine ⟨?_, ?_, ?_, ?_, ?_, ?_⟩
  · intro om data ret h
    exact ⟨by simp [OpenMap.set_initial_value, h], by omega⟩
  · intro om count ret h
    exact ⟨by simp [OpenMap.set_max_entries, h], by omega⟩
  · intro m path cs kr hp h
    exact ⟨by simp [Map.pin, hp, h], by simp [Map.unpin, hp, h], by omega⟩
  · intro m key value flags kr hk hv h
    simp [Map.update, hk, hv, h]
  · intro m key kr hk h
    simp [Map.delete, hk, h]
  · intro m key flags kr hk h he
    simp [Map.lookup, hk, h, he]

/-- Witness for C5: `set_initial_value` with return -7 reports `System(7)`;
`pin` of path `[47]` with return -17 reports `System(17)`; `update` with a
failed call and errno 22 reports `System(22)`. -/
theorem system_errno_sign_witness :
    ((⟨()⟩ : OpenMap).set_initial_value [1] (-7)).1 = .error (.System 7) ∧
    ((Map.new 3 "m" 1 4 8 ()).pin [47] ⟨-17, 0, []⟩).1
      = .error (.System 17) ∧
    ((Map.new 3 "m" 1 4 8 ()).update [1, 0, 0, 0] [9, 9, 9, 9, 9, 9, 9, 9]
      MapFlags.ANY ⟨-1, 22, []⟩).1 = .error (.System 22) :=
  ⟨(system_errno_sign.1 ⟨()⟩ [1] (-7) (by decide)).1,
   (system_errno_sign.2.2.1 (Map.new 3 "m" 1 4 8 ()) [47] [47, 0]
      ⟨-17, 0, []⟩ rfl (by decide)).1,
   system_errno_sign.2.2.2.1 (Map.new 3 "m" 1 4 8 ()) [1, 0, 0, 0]
      [9, 9, 9, 9, 9, 9, 9, 9] MapFlags.ANY ⟨-1, 22, []⟩ (by decide)
      (by decide) (by decide)⟩

/-- Claim C6: for every correctly sized key, delete returns a `System` error
on every kernel failure, including absence of the key (`ENOENT`): delete
performs no `ENOENT` special-casing and never converts absence into a
non-error result. -/
theorem delete_no_enoent_special_case (m : Map) (key : List Nat)
    (kr : KernelOutcome) (hk : key.length = m.key_size) (hret : kr.ret ≠ 0) :
    (m.delete key kr).1 = .error (.System kr.errno) ∧
    (kr.errno = ENOENT → (m.delete key kr).1 = .error (.System ENOENT)) := by
  have h : (m.delete key kr).1 = .error (.System kr.errno) := by
    simp [Map.delete, hk, hret]
  exact ⟨h, fun he => he ▸ h⟩

/-- Witness for C6: a failed delete with errno `ENOENT` is a `System(2)`
error, not a success. -/
theorem delete_no_enoent_special_case_witness :
    ((Map.new 3 "m" 1 4 8 ()).delete [1, 0, 0, 0] ⟨-1, 2, []⟩).1
      = .error (.System 2) :=
  (delete_no_enoent_special_case (Map.new 3 "m" 1 4 8 ()) [1, 0, 0, 0]
    ⟨-1, 2, []⟩ (by decide) (by decide)).1

/-- Claim C7: whenever lookup (and likewise lookup_and_delete) succeeds with
`Some(bytes)`, the returned byte vector has length exactly the map's
`value_size`. -/
theorem lookup_result_length (m : Map) (key : List Nat) (flags : MapFlags)
    (kr : KernelOutcome) (v : List Nat) :
    (m.lookup key flags kr = .ok (some v) → v.length = m.value_size) ∧
    ((m.lookup_and_delete key kr).1 = .ok (some v) →
      v.length = m.value_size) := by
  constructor
  · intro h
    by_cases h1 : key.length ≠ m.key_size
    · simp [Map.lookup, h1] at h
    · by_cases h2 : kr.ret = 0
      · simp [Map.lookup, h1, h2] at h
        exact h ▸ setLen_length kr.written m.value_size
      · by_cases h3 : kr.errno = ENOENT
        · simp [Map.lookup, h1, h2, h3] at h
        · simp [Map.lookup, h1, h2, h3] at h
  · intro h
    by_cases h1 : key.length ≠ m.key_size
    · simp [Map.lookup_and_delete, h1] at h
    · by_cases h2 : kr.ret = 0
      · simp [Map.lookup_and_delete, h1, h2] at h
        exact h ▸ setLen_length kr.written m.value_size
      · by_cases h3 : kr.errno = ENOENT
        · simp [Map.lookup_and_delete, h1, h2, h3] at h
        · simp [Map.lookup_and_delete, h1, h2, h3] at h

/-- Witness for C7: a successful lookup whose kernel write is 8 bytes on a
map with `value_size = 8`. -/
theorem lookup_result_length_witness :
    ([9, 9, 9, 9, 9, 9, 9, 9] : List Nat).length
      = (Map.new 3 "m" 1 4 8 ()).value_size :=
  (lookup_result_length (Map.new 3 "m" 1 4 8 ()) [1, 0, 0, 0] MapFlags.ANY
    ⟨0, 0, [9, 9, 9, 9, 9, 9, 9, 9]⟩ [9, 9, 9, 9, 9, 9, 9, 9]).1 rfl

/-- Absorption of bitwise or under bitwise and, used for flag containment. -/
theorem lor_land_absorb (a b : Nat) :
    (a ||| b) &&& a = a ∧ (a ||| b) &&& b = b := by
  constructor
  · apply Nat.eq_of_testBit_eq
    intro i
    simp [Nat.testBit_land, Nat.testBit_lor]
    cases a.testBit i <;> cases b.testBit i <;> simp
  · apply Nat.eq_of_testBit_eq
    intro i
    simp [Nat.testBit_land, Nat.testBit_lor]
    cases a.testBit i <;> cases b.testBit i <;> simp

/-- Claim C8: the `MapFlags` constants have exactly the numeric values
`ANY = 0`, `NO_EXIST = 1`, `EXIST = 2`, `LOCK = 4`, and `MapFlags` forms a
bit set under union and containment over these bits: `ANY` is the empty set
(neutral for union, contained in every flag set), any union contains both of
its operands, and union is commutative. -/
theorem mapflags_bitset :
    MapFlags.ANY.bits = 0 ∧ MapFlags.NO_EXIST.bits = 1 ∧
    MapFlags.EXIST.bits = 2 ∧ MapFlags.LOCK.bits = 4 ∧
    (∀ f : MapFlags, MapFlags.union MapFlags.ANY f = f ∧
      MapFlags.union f MapFlags.ANY = f ∧
      MapFlags.contains f MapFlags.ANY = true) ∧
    (∀ a b : MapFlags, MapFlags.contains (MapFlags.union a b) a = true ∧
      MapFlags.contains (MapFlags.union a b) b = true) ∧
    (∀ a b : MapFlags, MapFlags.union a b = MapFlags.union b a) := by
  refine ⟨rfl, rfl, rfl, rfl, ?_, ?_, ?_⟩
  · intro f
    obtain ⟨bits⟩ := f
    exact ⟨by simp [MapFlags.union, MapFlags.ANY],
           by simp [MapFlags.union, MapFlags.ANY],
           by simp [MapFlags.contains, MapFlags.ANY]⟩
  · intro a b
    exact ⟨by simp [MapFlags.contains, MapFlags.union, (lor_land_absorb a.bits b.bits).1],
           by simp [MapFlags.contains, MapFlags.union, (lor_land_absorb a.bits b.bits).2]⟩
  · intro a b
    simp [MapFlags.union, Nat.lor_comm]

/-- Witness for C8: concrete unions and containments of the named flags. -/
theorem mapflags_bitset_witness :
    MapFlags.union MapFlags.ANY MapFlags.NO_EXIST = MapFlags.NO_EXIST ∧
    MapFlags.contains (MapFlags.union MapFlags.EXIST MapFlags.LOCK)
      MapFlags.LOCK = true ∧
    MapFlags.contains MapFlags.LOCK MapFlags.ANY = true :=
  ⟨(mapflags_bitset.2.2.2.2.1 MapFlags.NO_EXIST).1,
   (mapflags_bitset.2.2.2.2.2.1 MapFlags.EXIST MapFlags.LOCK).2,
   (mapflags_bitset.2.2.2.2.1 MapFlags.LOCK).2.2⟩

/-- Claim C9: the cached `Map` metadata is immutable after creation: the
accessors return exactly the creation-time values with no failure mode, and
every state-passing operation (update, delete, lookup_and_delete, pin,
unpin; lookup takes the receiver immutably) returns the receiver with all
fields unchanged. -/
theorem map_metadata_immutable :
    (∀ (f : Int) (n : String) (t k v : Nat) (p : Unit),
      (Map.new f n t k v p).name = n ∧ (Map.new f n t k v p).fd = f ∧
      (Map.new f n t k v p).map_type = mapTypeOfRaw t ∧
      (Map.new f n t k v p).key_size = k ∧
      (Map.new f n t k v p).value_size = v) ∧
    (∀ (m : Map) (key value path : List Nat) (flags : MapFlags)
      (kr : KernelOutcome),
      (m.update key value flags kr).2 = m ∧ (m.delete key kr).2 = m ∧
      (m.lookup_and_delete key kr).2 = m ∧ (m.pin path kr).2 = m ∧
      (m.unpin path kr).2 = m) :=
  ⟨fun _ _ _ _ _ _ => ⟨rfl, rfl, rfl, rfl, rfl⟩,
   fun _ _ _ _ _ _ => ⟨rfl, rfl, rfl, rfl, rfl⟩⟩

/-- Witness for C9: a concrete map's accessors and a concrete update leave
the metadata intact. -/
theorem map_metadata_immutable_witness :
    (Map.new 3 "m" 1 4 8 ()).name = "m" ∧
    ((Map.new 3 "m" 1 4 8 ()).update [1, 0, 0, 0] [9, 9, 9, 9, 9, 9, 9, 9]
      MapFlags.ANY ⟨0, 0, []⟩).2 = Map.new 3 "m" 1 4 8 () :=
  ⟨(map_metadata_immutable.1 3 "m" 1 4 8 ()).1,
   (map_metadata_immutable.2 (Map.new 3 "m" 1 4 8 ()) [1, 0, 0, 0]
      [9, 9, 9, 9, 9, 9, 9, 9] [] MapFlags.ANY ⟨0, 0, []⟩).1⟩

/-- Claim C10: pin and unpin have a local, non-kernel failure path: for the
path `[47, 0, 97]` (which contains an interior NUL byte and cannot be
converted to a C string) both return the path-conversion `InvalidInput`
error, the result does not depend on the kernel call's outcome, the
kernel-visible state is unchanged, and the failure is not a `System`
error. -/
theorem pin_local_path_error (m : Map) (st : KernelState)
    (kr kr2 : KernelOutcome) :
    path_to_cstring [47, 0, 97]
      = .error (.InvalidInput "path contains NUL") ∧
    (m.pin [47, 0, 97] kr).1 = .error (.InvalidInput "path contains NUL") ∧
    (m.unpin [47, 0, 97] kr).1
      = .error (.InvalidInput "path contains NUL") ∧
    m.pin [47, 0, 97] kr = m.pin [47, 0, 97] kr2 ∧
    m.unpin [47, 0, 97] kr = m.unpin [47, 0, 97] kr2 ∧
    (m.pinRun st [47, 0, 97]).2 = st ∧
    (m.unpinRun st [47, 0, 97]).2 = st ∧
    (∀ code : Int, (m.pin [47, 0, 97] kr).1 ≠ .error (.System code)) := by
  refine ⟨rfl, ?_, ?_, ?_, ?_, ?_, ?_, ?_⟩
  · simp [Map.pin, path_to_cstring]
  · simp [Map.unpin, path_to_cstring]
  · simp [Map.pin, path_to_cstring]
  · simp [Map.unpin, path_to_cstring]
  · simp [Map.pinRun, path_to_cstring]
  · simp [Map.unpinRun, path_to_cstring]
  · intro code
    simp [Map.pin, path_to_cstring]

/-- Witness for C10: a concrete map, state and two distinct kernel
outcomes. -/
theorem pin_local_path_error_witness :
    ((Map.new 3 "m" 1 4 8 ()).pin [47, 0, 97] ⟨-17, 0, []⟩).1
      = .error (.InvalidInput "path contains NUL") ∧
    ((Map.new 3 "m" 1 4 8 ()).pinRun ⟨[], [], 0⟩ [47, 0, 97]).2
      = ⟨[], [], 0⟩ :=
  ⟨(pin_local_path_error (Map.new 3 "m" 1 4 8 ()) ⟨[], [], 0⟩ ⟨-17, 0, []⟩
      ⟨0, 0, []⟩).2.1,
   (pin_local_path_error (Map.new 3 "m" 1 4 8 ()) ⟨[], [], 0⟩ ⟨-17, 0, []⟩
      ⟨0, 0, []⟩).2.2.2.2.2.1⟩
